import Mathlib

/-!
Shallow embedding of `src/main.py` (a FastAPI service that normalizes an
uploaded JSON "book source"/"subscription source" document and publishes it
to a GitHub repository via the Contents API).

Modelling conventions:
* JSON values (the results of Python `json.loads`) are the inductive `Json`
  below; numbers are modelled as integers (no claim depends on float values).
* Parsing of the uploaded bytes is the standard library `json.loads`; it is
  abstracted as `RawUpload`: the upload is empty, fails to decode, or decodes
  to a `Json` value.  Everything from that point on is translated from the
  source.
* The two outbound HTTP calls (`requests.get`, `requests.put`) are modelled
  by passing in their responses (`HttpResp`) and recording the issued calls
  in a `List RemoteCall` returned alongside the handler's result.
* A raised `HTTPException(status_code, detail)` is the `.error` case of
  `Except HTTPError`.
* Python standard-library exception texts that get interpolated into detail
  strings (`str(e)` for `KeyError`, `TypeError`, …) are modelled by fixed
  strings marked below; no claim depends on their exact wording.
-/

namespace SourceZip

/-- A parsed JSON value, as returned by Python `json.loads`.  Objects keep
their fields as an association list; `json.loads` never produces duplicate
keys, so first-match lookup agrees with Python dict lookup. -/
inductive Json where
  | null
  | bool (b : Bool)
  | num (n : Int)
  | str (s : String)
  | arr (elems : List Json)
  | obj (fields : List (String × Json))

/-- Python truthiness (`if x:`) of a JSON value: `None`, `False`, `0`, `""`,
`[]` and `{}` are falsy, everything else truthy. -/
def pyTruthy : Json → Bool
  | .null => false
  | .bool b => b
  | .num n => n != 0
  | .str s => s != ""
  | .arr xs => !xs.isEmpty
  | .obj kvs => !kvs.isEmpty

/-- Whether a JSON value is a string. -/
def isStr : Json → Bool
  | .str _ => true
  | _ => false

/-- Dict lookup (`d[k]` / `d.get(k)` on a parsed object). -/
def jlookup (kvs : List (String × Json)) (k : String) : Option Json :=
  (kvs.find? (fun kv => kv.1 == k)).map (·.2)

/-- Python `str.isspace` characters (the set `str.strip()` removes). -/
def pyIsSpace (c : Char) : Bool :=
  c = ' ' || c = '\t' || c = '\n' || c = '\x0b' || c = '\x0c' || c = '\r' ||
  (0x1c ≤ c.toNat && c.toNat ≤ 0x1f) ||
  c = '\x85' || c = '\xa0' || c = ' ' ||
  (0x2000 ≤ c.toNat && c.toNat ≤ 0x200a) ||
  c = ' ' || c = ' ' || c = ' ' || c = ' ' || c = '　'

/-- Python `str.strip()` on a character list: drop whitespace from both ends. -/
def stripChars (l : List Char) : List Char :=
  ((l.dropWhile pyIsSpace).reverse.dropWhile pyIsSpace).reverse

/-- The nine characters removed by `re.sub(r'[\\/*?:"<>|]', '', name)`. -/
def illegalChars : List Char := ['\\', '/', '*', '?', ':', '"', '<', '>', '|']

/-- Python `re.sub(r'[\\/*?:"<>|]', '', s)`: delete every occurrence of the nine
illegal filename characters. -/
def removeIllegal (s : String) : String :=
  String.mk (s.data.filter (fun c => !(illegalChars.contains c)))

/-- Lines 83–84 of `main.py`: `re.sub(...)` followed by `.strip()`. -/
def sanitizeName (s : String) : String :=
  String.mk (stripChars (removeIllegal s).data)

/-- Python type name of a JSON value (used in the `TypeError` text that
`re.sub` raises on a non-string argument). -/
def pyTypeName : Json → String
  | .null => "NoneType"
  | .bool _ => "bool"
  | .num _ => "int"
  | .str _ => "str"
  | .arr _ => "list"
  | .obj _ => "dict"

mutual

/-- Python `repr` of a JSON value (modelled: strings are wrapped in single
quotes without further escaping; exact only for quote- and escape-free
strings, which is all any claim exercises). -/
def pyRepr : Json → String
  | .null => "None"
  | .bool true => "True"
  | .bool false => "False"
  | .num n => toString n
  | .str s => "\x27" ++ s ++ "\x27"
  | .arr xs => "[" ++ pyReprItems xs ++ "]"
  | .obj kvs => "\x7b" ++ pyReprFields kvs ++ "\x7d"

/-- Rendering of list elements under `repr`, comma-separated. -/
def pyReprItems : List Json → String
  | [] => ""
  | [x] => pyRepr x
  | x :: y :: xs => pyRepr x ++ ", " ++ pyReprItems (y :: xs)

/-- Rendering of dict entries under `repr`, comma-separated. -/
def pyReprFields : List (String × Json) → String
  | [] => ""
  | [(k, v)] => "\x27" ++ k ++ "\x27: " ++ pyRepr v
  | (k, v) :: kv :: kvs =>
      "\x27" ++ k ++ "\x27: " ++ pyRepr v ++ ", " ++ pyReprFields (kv :: kvs)

end

/-- Python `str()` of a JSON value (as interpolated by an f-string). -/
def pyStr : Json → String
  | .str s => s
  | v => pyRepr v

/-- Lower-case hexadecimal digit. -/
def hexDigit (n : Nat) : Char :=
  if n < 10 then Char.ofNat (48 + n) else Char.ofNat (87 + n)

/-- JSON string escaping as performed by `json.dumps(..., ensure_ascii=False)`:
only `"`,`\` and control characters are escaped; non-ASCII is kept literal. -/
def jsonEscapeChar (c : Char) : String :=
  if c = '"' then "\\\""
  else if c = '\\' then "\\\\"
  else if c = '\n' then "\\n"
  else if c = '\r' then "\\r"
  else if c = '\t' then "\\t"
  else if c = '\x08' then "\\b"
  else if c = '\x0c' then "\\f"
  else if c.toNat < 0x20 then
    "\\u00" ++ String.mk [hexDigit (c.toNat / 16), hexDigit (c.toNat % 16)]
  else String.singleton c

/-- A JSON string literal as emitted by `json.dumps(..., ensure_ascii=False)`. -/
def jsonQuote (s : String) : String :=
  "\"" ++ String.join (s.data.map jsonEscapeChar) ++ "\""

/-- A run of `n` spaces. -/
def spaces (n : Nat) : String := String.mk (List.replicate n ' ')

mutual

/-- Python `json.dumps(v, ensure_ascii=False, indent=2)` at nesting depth giving
current indentation `ind`. -/
def dumpJson (ind : Nat) : Json → String
  | .null => "null"
  | .bool true => "true"
  | .bool false => "false"
  | .num n => toString n
  | .str s => jsonQuote s
  | .arr [] => "[]"
  | .arr (x :: xs) =>
      "[\n" ++ dumpItems (ind + 2) (x :: xs) ++ "\n" ++ spaces ind ++ "]"
  | .obj [] => "\x7b\x7d"
  | .obj (kv :: kvs) =>
      "\x7b\n" ++ dumpFields (ind + 2) (kv :: kvs) ++ "\n" ++ spaces ind ++ "\x7d"

/-- Indented, comma-and-newline separated array items. -/
def dumpItems (ind : Nat) : List Json → String
  | [] => ""
  | [x] => spaces ind ++ dumpJson ind x
  | x :: y :: xs => spaces ind ++ dumpJson ind x ++ ",\n" ++ dumpItems ind (y :: xs)

/-- Indented, comma-and-newline separated object entries (`"key": value`). -/
def dumpFields (ind : Nat) : List (String × Json) → String
  | [] => ""
  | [(k, v)] => spaces ind ++ jsonQuote k ++ ": " ++ dumpJson ind v
  | (k, v) :: kv :: kvs =>
      spaces ind ++ jsonQuote k ++ ": " ++ dumpJson ind v ++ ",\n" ++
        dumpFields ind (kv :: kvs)

end

/-- UTF-8 bytes of a string (`s.encode('utf-8')`). -/
def utf8Bytes (s : String) : List Nat :=
  s.toUTF8.toList.map (·.toNat)

/-- Base64 alphabet. -/
def b64Alphabet : List Char :=
  "ABCDEFGHIJKLMNOPQRSTUVWXYZabcdefghijklmnopqrstuvwxyz0123456789+/".data

/-- Base64 digit for a 6-bit value. -/
def b64Char (n : Nat) : Char := b64Alphabet.getD n 'A'

/-- Python `base64.b64encode` over a byte list. -/
def b64encode : List Nat → String
  | [] => ""
  | [a] =>
      String.mk [b64Char (a / 4), b64Char (a % 4 * 16), '=', '=']
  | [a, b] =>
      String.mk [b64Char (a / 4), b64Char (a % 4 * 16 + b / 16),
        b64Char (b % 16 * 4), '=']
  | a :: b :: c :: rest =>
      String.mk [b64Char (a / 4), b64Char (a % 4 * 16 + b / 16),
        b64Char (b % 16 * 4 + c / 64), b64Char (c % 64)] ++ b64encode rest

/-- The uploaded file as seen after `await file.read()` and `json.loads`:
empty bytes, bytes that fail to decode as JSON, or a parsed value. -/
inductive RawUpload where
  | empty
  | invalid
  | parsed (v : Json)

/-- Lines 39–50 / 62–71 of `main.py`: probe the relevant object for
`bookSourceName` first, then `sourceName`; return
`(file_type, name_field, raw name value)`. -/
def classify (kvs : List (String × Json)) : Option (String × String × Json) :=
  match jlookup kvs "bookSourceName" with
  | some v => some ("book_source", "bookSourceName", v)
  | none =>
    match jlookup kvs "sourceName" with
    | some v => some ("subscription_source", "sourceName", v)
    | none => none

/-- The wrapper `except Exception as e: raise ValueError(f"处理JSON内容时出错: {str(e)}")`:
every error raised inside the `try` of `process_json_content` other than a
`json.JSONDecodeError` is re-wrapped with this prefix. -/
def wrapErr (m : String) : String := "处理JSON内容时出错: " ++ m

/-- The `TypeError` text raised by `re.sub` on a non-string argument
(modelled standard-library text). -/
def reSubError (v : Json) : String :=
  "expected string or bytes-like object, got \x27" ++ pyTypeName v ++ "\x27"

/-- Lines 81–84 of `main.py`: `if name_value:` then sanitize.  A truthy
non-string raises `TypeError` inside `re.sub`; a falsy value is left as is. -/
def sanitizeStep (j : Json) (t f : String) (nv : Json) :
    Except String (Json × String × String × Json) :=
  if pyTruthy nv then
    match nv with
    | .str s => .ok (j, t, f, .str (sanitizeName s))
    | _ => .error (reSubError nv)
  else .ok (j, t, f, nv)

/-- The body of `process_json_content`'s `try` block on a parsed value:
classify, wrap a single object into a one-element array, sanitize the name.
Errors here are the messages of the `raise ValueError(...)` sites (still
unwrapped). -/
def process_value : Json → Except String (Json × String × String × Json)
  | .obj kvs =>
    match classify kvs with
    | none => .error "JSON中未找到bookSourceName或sourceName字段"
    | some (t, f, nv) => sanitizeStep (.arr [.obj kvs]) t f nv
  | .arr [] => .error "JSON数组为空"
  | .arr (first :: rest) =>
    match first with
    | .obj kvs =>
      match classify kvs with
      | none => .error "JSON数组中未找到bookSourceName或sourceName字段"
      | some (t, f, nv) => sanitizeStep (.arr (first :: rest)) t f nv
    | _ => .error "JSON数组中的元素不是对象"
  | _ => .error "JSON格式不正确"

/-- The body of `process_json_content` up to serialization: the canonical array value,
file type, name field, and (possibly sanitized) name value.  A decode
failure yields the unwrapped `JSONDecodeError` message; every other error is
wrapped by `wrapErr`. -/
def process_core : RawUpload → Except String (Json × String × String × Json)
  | .empty => .error "上传的文件不是有效的JSON格式"
  | .invalid => .error "上传的文件不是有效的JSON格式"
  | .parsed v =>
    match process_value v with
    | .error m => .error (wrapErr m)
    | .ok r => .ok r

/-- Lines 25–94 of `main.py`: full `process_json_content`, returning the
re-serialized canonical text (`json.dumps(..., ensure_ascii=False, indent=2)`)
in place of the canonical value. -/
def process_json_content (raw : RawUpload) :
    Except String (String × String × String × Json) :=
  (process_core raw).map fun r => (dumpJson 0 r.1, r.2.1, r.2.2.1, r.2.2.2)

/-- Lines 96–103 of `main.py`. -/
def get_folder_name (file_type : String) : String :=
  if file_type == "book_source" then "book-sources"
  else if file_type == "subscription_source" then "subscription-sources"
  else "others"

/-- An HTTP response from the remote store: status code and the result of
`.json()` on its body (`none` when the body does not parse as JSON). -/
structure HttpResp where
  status : Nat
  body : Option Json

/-- A raised `HTTPException(status_code=..., detail=...)`. -/
structure HTTPError where
  status : Nat
  detail : String

/-- The JSON body of the `requests.put` write (lines 147–156 of `main.py`). -/
structure PutData where
  message : String
  content : String
  branch : String
  sha : Option Json

/-- An outbound request issued to the remote store, in issue order. -/
inductive RemoteCall where
  | get (url token : String)
  | put (url token : String) (data : PutData)

/-- Lines 154–156 of `main.py` plus the surrounding `except Exception`:
when the existence check returned status 200, extract `response.json()["sha"]`;
a non-JSON body, a non-object body, or a missing `"sha"` key raises and is
turned into a 500 (modelled standard-library exception texts); any status
other than 200 means no `sha` is sent. -/
def readSha (g : HttpResp) : Except HTTPError (Option Json) :=
  if g.status = 200 then
    match g.body with
    | some (.obj kvs) =>
      match jlookup kvs "sha" with
      | some tok => .ok (some tok)
      | none => .error ⟨500, "服务器内部错误: \x27sha\x27"⟩
    | some v => .error ⟨500, "服务器内部错误: " ++ pyTypeName v ++ " is not subscriptable"⟩
    | none => .error ⟨500, "服务器内部错误: Expecting value: line 1 column 1 (char 0)"⟩
  else .ok none

/-- Lines 166–171 of `main.py`: the detail of a failed write.  When the error
body parses as a JSON object, append `": " + str(body.get('message', '未知错误'))`;
when `.json()` raises (non-JSON body) or `.get` raises (JSON but not an
object), append `"，状态码: " + status`. -/
def uploadFailDetail (p : HttpResp) : String :=
  match p.body with
  | some (.obj kvs) =>
      "文件上传失败: " ++ pyStr ((jlookup kvs "message").getD (.str "未知错误"))
  | _ => "文件上传失败，状态码: " ++ toString p.status

/-- Line 135 of `main.py`: the Contents-API URL for a path. -/
def ghUrl (repo_name file_path : String) : String :=
  "https://api.github.com/repos/" ++ repo_name ++ "/contents/" ++ file_path

/-- Lines 105–180 of `main.py`: the `/upload` handler.  Returns the handler's
outcome (path string, or raised `HTTPException`) together with the list of
outbound requests issued, in order.  `getResp` and `putResp` are the responses
the remote store would give to the existence check and to the write. -/
def upload_file_to_github (repo_name branch commit_message access_token : String)
    (raw : RawUpload) (getResp putResp : HttpResp) :
    Except HTTPError String × List RemoteCall :=
  match raw with
  | .empty => (.error ⟨400, "文件内容为空"⟩, [])
  | _ =>
    match process_core raw with
    | .error m => (.error ⟨400, m⟩, [])
    | .ok (pj, file_type, _, name_value) =>
      if pyTruthy name_value then
        let file_path := get_folder_name file_type ++ "/" ++ pyStr name_value ++ ".json"
        let url := ghUrl repo_name file_path
        match readSha getResp with
        | .error e => (.error e, [.get url access_token])
        | .ok sha? =>
          let data : PutData :=
            { message := commit_message
              content := b64encode (utf8Bytes (dumpJson 0 pj))
              branch := branch
              sha := sha? }
          if putResp.status = 201 ∨ putResp.status = 200 then
            (.ok file_path, [.get url access_token, .put url access_token data])
          else
            (.error ⟨400, uploadFailDetail putResp⟩,
              [.get url access_token, .put url access_token data])
      else (.error ⟨400, "无法从JSON中提取名称"⟩, [])

/-- Lines 182–213 of `main.py`: the `/upload-simple` handler.  It calls the
primary handler and reshapes the outcome into the fixed two-field envelope;
the only exceptions the primary handler raises are `HTTPException`s, all of
which are caught here, so this handler always returns a body (HTTP 200). -/
def upload_file_simple (repo_name branch commit_message access_token : String)
    (raw : RawUpload) (getResp putResp : HttpResp) : Json × List RemoteCall :=
  match upload_file_to_github repo_name branch commit_message access_token raw getResp putResp with
  | (.ok path, calls) =>
      (.obj [("message", .str "ok"), ("data", .str path)], calls)
  | (.error e, calls) =>
      (.obj [("message", .str "error"), ("data", .str ("上传失败: " ++ e.detail))], calls)

/-- The write requests among the issued calls. -/
def putDatas (calls : List RemoteCall) : List PutData :=
  calls.filterMap fun c =>
    match c with
    | .put _ _ d => some d
    | _ => none

/-- The object whose fields are probed for the discriminator: the parsed
object itself, or the array's first element when that is an object. -/
def relevantObj : Json → Option (List (String × Json))
  | .obj kvs => some kvs
  | .arr (.obj kvs :: _) => some kvs
  | _ => none

/-- Whether a JSON value is a non-empty array. -/
def isNonemptyArr : Json → Bool
  | .arr (_ :: _) => true
  | _ => false

/-- The extracted name value of a successful normalization. -/
def nameOf (r : Except String (Json × String × String × Json)) : Option Json :=
  match r with
  | .ok x => some x.2.2.2
  | .error _ => none

/-- The HTTP status a handler outcome failed with, if it failed. -/
def errStatus (r : Except HTTPError String) : Option Nat :=
  match r with
  | .error e => some e.status
  | .ok _ => none

/-- Python `str.strip()` only ever drops characters: its result is a sublist. -/
theorem stripChars_sublist (l : List Char) : (stripChars l).Sublist l := by
  unfold stripChars
  have h1 : (l.dropWhile pyIsSpace).Sublist l := List.dropWhile_sublist _
  have h2 : ((l.dropWhile pyIsSpace).reverse.dropWhile pyIsSpace).Sublist
      (l.dropWhile pyIsSpace).reverse := List.dropWhile_sublist _
  have h3 := List.reverse_sublist.mpr h2
  rw [List.reverse_reverse] at h3
  exact h3.trans h1

/-- A successful `sanitizeStep` keeps the canonical value, type and field name. -/
theorem sanitizeStep_ok {A j : Json} {t f t' f' : String} {nv nv' : Json}
    (h : sanitizeStep A t f nv = .ok (j, t', f', nv')) :
    j = A ∧ t' = t ∧ f' = f := by
  unfold sanitizeStep at h
  split at h
  · cases nv <;> simp_all
  · simp_all

/-- A successful `sanitizeStep` yields either a sanitized string or the
original falsy value; in particular a truthy result is a non-empty string. -/
theorem sanitizeStep_ok_truthy {A j : Json} {t f t' f' : String} {nv nv' : Json}
    (h : sanitizeStep A t f nv = .ok (j, t', f', nv'))
    (htr : pyTruthy nv' = true) : ∃ s, nv' = Json.str s ∧ s ≠ "" := by
  unfold sanitizeStep at h
  split at h
  · cases nv with
    | str s =>
      simp only [Except.ok.injEq, Prod.mk.injEq] at h
      obtain ⟨-, -, -, hn⟩ := h
      subst hn
      simp only [pyTruthy, bne_iff_ne, ne_eq, decide_eq_true_eq] at htr
      exact ⟨sanitizeName s, rfl, by simpa using htr⟩
    | null => simp at h
    | bool b => simp at h
    | num n => simp at h
    | arr xs => simp at h
    | obj kvs => simp at h
  · rename_i hfalsy
    simp only [Except.ok.injEq, Prod.mk.injEq] at h
    obtain ⟨-, -, -, hn⟩ := h
    subst hn
    rw [htr] at hfalsy
    simp at hfalsy

/-- C1: for every request to the upload operation whose file content is the
JSON object `{"bookSourceName":"Test"}` and whose remote write returns status
200 or 201, the returned result is exactly the path string
`book-sources/Test.json`; for file content `{"sourceName":"Feed1"}` under the
same conditions the returned result is exactly
`subscription-sources/Feed1.json`.  (The existence read is arbitrary, as long
as it lets the write proceed, i.e. `readSha` succeeds.) -/
theorem c1_end_to_end (rn br cm tok : String) (g p : HttpResp) (s : Option Json)
    (hg : readSha g = .ok s) (hp : p.status = 200 ∨ p.status = 201) :
    (upload_file_to_github rn br cm tok
        (.parsed (.obj [("bookSourceName", Json.str "Test")])) g p).1 =
      .ok "book-sources/Test.json" ∧
    (upload_file_to_github rn br cm tok
        (.parsed (.obj [("sourceName", Json.str "Feed1")])) g p).1 =
      .ok "subscription-sources/Feed1.json" := by
  have hp' : p.status = 201 ∨ p.status = 200 := hp.symm
  constructor
  · simp only [upload_file_to_github]
    rw [show process_core (.parsed (.obj [("bookSourceName", Json.str "Test")])) =
      Except.ok (Json.arr [.obj [("bookSourceName", Json.str "Test")]],
        "book_source", "bookSourceName", Json.str "Test") from rfl]
    rw [hg]
    rcases hp' with h | h <;> simp [h, pyTruthy, get_folder_name, pyStr]
  · simp only [upload_file_to_github]
    rw [show process_core (.parsed (.obj [("sourceName", Json.str "Feed1")])) =
      Except.ok (Json.arr [.obj [("sourceName", Json.str "Feed1")]],
        "subscription_source", "sourceName", Json.str "Feed1") from rfl]
    rw [hg]
    rcases hp' with h | h <;> simp [h, pyTruthy, get_folder_name, pyStr]

/-- Witness for C1 at a concrete existence read (404, no body) and write
response 201. -/
theorem c1_end_to_end_witness :
    (upload_file_to_github "org/repo" "main" "update" "token"
        (.parsed (.obj [("bookSourceName", Json.str "Test")])) ⟨404, none⟩ ⟨201, none⟩).1 =
      .ok "book-sources/Test.json" ∧
    (upload_file_to_github "org/repo" "main" "update" "token"
        (.parsed (.obj [("sourceName", Json.str "Feed1")])) ⟨404, none⟩ ⟨201, none⟩).1 =
      .ok "subscription-sources/Feed1.json" :=
  c1_end_to_end "org/repo" "main" "update" "token" ⟨404, none⟩ ⟨201, none⟩ none rfl
    (Or.inr rfl)

/-- Characterization of a successful `process_value`: the input was an object
(wrapped into a singleton array) or a non-empty array headed by an object; the
canonical value is that array; the discriminator lookup succeeded; and the
name value is the sanitized raw name. -/
theorem process_value_ok {v j : Json} {t f : String} {nv : Json}
    (h : process_value v = .ok (j, t, f, nv)) :
    ∃ kvs rest nv0,
      relevantObj v = some kvs ∧
      classify kvs = some (t, f, nv0) ∧
      sanitizeStep j t f nv0 = .ok (j, t, f, nv) ∧
      ((v = Json.obj kvs ∧ j = .arr [v]) ∨
        (v = Json.arr (Json.obj kvs :: rest) ∧ j = v)) := by
  cases v with
  | obj kvs =>
    simp only [process_value] at h
    cases hc : classify kvs with
    | none => rw [hc] at h; simp at h
    | some tfn =>
      obtain ⟨t0, f0, nv0⟩ := tfn
      rw [hc] at h
      obtain ⟨hj, ht, hf⟩ := sanitizeStep_ok h
      subst hj; subst ht; subst hf
      exact ⟨kvs, [], nv0, rfl, hc, h, Or.inl ⟨rfl, rfl⟩⟩
  | arr l =>
    cases l with
    | nil => simp [process_value] at h
    | cons first rest =>
      cases first with
      | obj kvs =>
        simp only [process_value] at h
        cases hc : classify kvs with
        | none => rw [hc] at h; simp at h
        | some tfn =>
          obtain ⟨t0, f0, nv0⟩ := tfn
          rw [hc] at h
          obtain ⟨hj, ht, hf⟩ := sanitizeStep_ok h
          subst hj; subst ht; subst hf
          exact ⟨kvs, rest, nv0, rfl, hc, h, Or.inr ⟨rfl, rfl⟩⟩
      | null => simp [process_value] at h
      | bool b => simp [process_value] at h
      | num n => simp [process_value] at h
      | str s => simp [process_value] at h
      | arr xs => simp [process_value] at h
  | null => simp [process_value] at h
  | bool b => simp [process_value] at h
  | num n => simp [process_value] at h
  | str s => simp [process_value] at h

/-- A successful `process_core` comes from a parsed value. -/
theorem process_core_ok {raw : RawUpload} {j : Json} {t f : String} {nv : Json}
    (h : process_core raw = .ok (j, t, f, nv)) :
    ∃ v, raw = .parsed v ∧ process_value v = .ok (j, t, f, nv) := by
  cases raw with
  | empty => simp [process_core] at h
  | invalid => simp [process_core] at h
  | parsed v =>
    refine ⟨v, rfl, ?_⟩
    simp only [process_core] at h
    split at h
    · simp at h
    · rename_i r heq
      simp only [Except.ok.injEq] at h
      rw [h] at heq
      exact heq

/-- If the upload issued any outbound call, normalization succeeded and the
extracted name was truthy. -/
theorem upload_calls_nonempty {rn br cm tok : String} {raw : RawUpload}
    {g p : HttpResp}
    (hne : ((upload_file_to_github rn br cm tok raw g p).2).isEmpty = false) :
    ∃ j t f nv, process_core raw = .ok (j, t, f, nv) ∧ pyTruthy nv = true := by
  cases raw with
  | empty => simp [upload_file_to_github] at hne
  | invalid =>
    cases hpc : process_core .invalid with
    | error m => simp [upload_file_to_github, hpc] at hne
    | ok r => simp [process_core] at hpc
  | parsed v =>
    cases hpc : process_core (.parsed v) with
    | error m => simp [upload_file_to_github, hpc] at hne
    | ok r =>
      obtain ⟨j, t, f, nv⟩ := r
      by_cases htr : pyTruthy nv = true
      · exact ⟨j, t, f, nv, rfl, htr⟩
      · rw [Bool.not_eq_true] at htr
        simp [upload_file_to_github, hpc, htr] at hne

/-- C2: for every upload that normalization accepts, the canonical value is a
JSON array with at least one element; and whenever the upload issues any
request to the remote store, normalization succeeded with a display name that
is a non-empty string after sanitization (otherwise the request failed before
publishing, issuing nothing). -/
theorem c2_normalization_invariant :
    (∀ raw j t f nv, process_core raw = .ok (j, t, f, nv) →
      isNonemptyArr j = true) ∧
    (∀ rn br cm tok raw g p,
      ((upload_file_to_github rn br cm tok raw g p).2).isEmpty = false →
      ((nameOf (process_core raw)).any fun v => isStr v && pyTruthy v) = true) := by
  constructor
  · intro raw j t f nv h
    obtain ⟨v, -, hpv⟩ := process_core_ok h
    obtain ⟨kvs, rest, nv0, -, -, -, hcase⟩ := process_value_ok hpv
    rcases hcase with ⟨hv, hj⟩ | ⟨hv, hj⟩ <;> subst hj <;> rw [hv] <;> rfl
  · intro rn br cm tok raw g p hne
    obtain ⟨j, t, f, nv, hpc, htr⟩ := upload_calls_nonempty hne
    obtain ⟨v, -, hpv⟩ := process_core_ok hpc
    obtain ⟨kvs, rest, nv0, -, -, hsan, -⟩ := process_value_ok hpv
    obtain ⟨s, hns, hsne⟩ := sanitizeStep_ok_truthy hsan htr
    rw [hpc]
    subst hns
    simp [nameOf, isStr, pyTruthy, hsne]

/-- Witness for C2 on the upload `{"bookSourceName":"Test"}`. -/
theorem c2_normalization_invariant_witness :
    isNonemptyArr (Json.arr [Json.obj [("bookSourceName", Json.str "Test")]]) = true ∧
    ((nameOf (process_core (.parsed (.obj [("bookSourceName", Json.str "Test")])))).any
      fun v => isStr v && pyTruthy v) = true :=
  ⟨c2_normalization_invariant.1 (.parsed (.obj [("bookSourceName", Json.str "Test")]))
      _ "book_source" "bookSourceName" (Json.str "Test") rfl,
    c2_normalization_invariant.2 "org/repo" "main" "msg" "token"
      (.parsed (.obj [("bookSourceName", Json.str "Test")])) ⟨404, none⟩ ⟨201, none⟩ rfl⟩

/-- C9: normalization is idempotent up to formatting — re-normalizing the
canonical array produced by an accepted upload yields the same canonical
array, the same kind and the same display name.  (The canonical bytes are
`json.dumps` of that array, which `json.loads` parses back to it.) -/
theorem c9_renormalize_idempotent :
    ∀ raw j t f nv, process_core raw = .ok (j, t, f, nv) →
      process_core (.parsed j) = .ok (j, t, f, nv) := by
  intro raw j t f nv h
  obtain ⟨v, -, hpv⟩ := process_core_ok h
  obtain ⟨kvs, rest, nv0, hrel, hc, hsan, hcase⟩ := process_value_ok hpv
  obtain ⟨tail, hj⟩ : ∃ tail, j = Json.arr (Json.obj kvs :: tail) := by
    rcases hcase with ⟨hv, hj⟩ | ⟨hv, hj⟩
    · exact ⟨[], by rw [hj, hv]⟩
    · exact ⟨rest, by rw [hj, hv]⟩
  subst hj
  simp only [process_core, process_value, hc]
  rw [hsan]

/-- Witness for C9: re-normalizing the canonical array of
`{"bookSourceName":"X"}`. -/
theorem c9_renormalize_idempotent_witness :
    process_core (.parsed (.arr [.obj [("bookSourceName", Json.str "X")]])) =
      .ok (.arr [.obj [("bookSourceName", Json.str "X")]],
        "book_source", "bookSourceName", Json.str "X") :=
  c9_renormalize_idempotent (.parsed (.obj [("bookSourceName", Json.str "X")]))
    _ _ _ _ rfl

/-- C3 counterexample: the claim "an array whose first element contains
`sourceName: Y` is classified kind=SubscriptionSource with displayName Y"
fails when the first element also contains `bookSourceName`, which is probed
first: `[{"bookSourceName":"A","sourceName":"Y"}]` is classified as a book
source with display name "A". -/
theorem c3_counterexample :
    process_core (.parsed (.arr [.obj
        [("bookSourceName", Json.str "A"), ("sourceName", Json.str "Y")]])) =
      .ok (.arr [.obj [("bookSourceName", Json.str "A"), ("sourceName", Json.str "Y")]],
        "book_source", "bookSourceName", Json.str "A") ∧
    "book_source" ≠ "subscription_source" ∧ ("A" : String) ≠ "Y" :=
  ⟨rfl, by decide, by decide⟩

/-- C3 (amended): for every valid JSON array input whose first element is an
object containing `sourceName` with string value Y and not containing
`bookSourceName`, normalization preserves the array as-is and classifies
kind=SubscriptionSource with displayName = the sanitized Y (equal to Y
whenever Y contains no illegal character and no surrounding whitespace). -/
theorem c3_array_subscription (first : Json) (rest : List Json)
    (kvs : List (String × Json)) (Y : String)
    (h1 : first = .obj kvs)
    (h2 : jlookup kvs "bookSourceName" = none)
    (h3 : jlookup kvs "sourceName" = some (.str Y)) :
    process_core (.parsed (.arr (first :: rest))) =
      .ok (.arr (first :: rest), "subscription_source", "sourceName",
        .str (sanitizeName Y)) := by
  subst h1
  simp only [process_core, process_value, classify, h2, h3]
  by_cases hY : Y = ""
  · subst hY
    simp [sanitizeStep, pyTruthy, sanitizeName, removeIllegal, stripChars]
  · simp [sanitizeStep, pyTruthy, hY]

/-- Witness for C3 (amended) on `[{"sourceName":"Feed1"}]`. -/
theorem c3_array_subscription_witness :
    process_core (.parsed (.arr [.obj [("sourceName", Json.str "Feed1")]])) =
      .ok (.arr [.obj [("sourceName", Json.str "Feed1")]],
        "subscription_source", "sourceName", Json.str (sanitizeName "Feed1")) :=
  c3_array_subscription (.obj [("sourceName", Json.str "Feed1")]) []
    [("sourceName", Json.str "Feed1")] "Feed1" rfl rfl rfl

/-- C4: sanitization only deletes characters (the result is a sublist of the
input) and deletes every occurrence of the nine illegal characters;
`A/B:C*D` becomes `ABCD`; and when the sanitized name is empty the upload
fails with the 400 "cannot extract name" error before issuing any remote
request. -/
theorem c4_sanitize :
    (∀ s : String, (∀ c ∈ (sanitizeName s).data, c ∉ illegalChars) ∧
      (sanitizeName s).data.Sublist s.data) ∧
    sanitizeName "A/B:C*D" = "ABCD" ∧
    (∀ rn br cm tok g p kvs t f Y,
      classify kvs = some (t, f, Json.str Y) → sanitizeName Y = "" →
      upload_file_to_github rn br cm tok (.parsed (.obj kvs)) g p =
        (.error ⟨400, "无法从JSON中提取名称"⟩, [])) := by
  refine ⟨?_, rfl, ?_⟩
  · intro s
    have hsub1 : (sanitizeName s).data.Sublist (removeIllegal s).data :=
      stripChars_sublist _
    have hsub2 : (removeIllegal s).data.Sublist s.data := List.filter_sublist _
    constructor
    · intro c hc
      have hmem : c ∈ (removeIllegal s).data := hsub1.subset hc
      have hmf : c ∈ s.data.filter (fun c => !(illegalChars.contains c)) := hmem
      rw [List.mem_filter] at hmf
      simpa using hmf.2
    · exact hsub1.trans hsub2
  · intro rn br cm tok g p kvs t f Y hc hY
    have hpc : process_core (.parsed (.obj kvs)) =
        .ok (.arr [.obj kvs], t, f, Json.str "") := by
      simp only [process_core, process_value, hc, sanitizeStep]
      by_cases hY0 : Y = ""
      · subst hY0; simp [pyTruthy]
      · simp [pyTruthy, hY0, hY]
    simp [upload_file_to_github, hpc, pyTruthy]

/-- Witness for C4: a concrete character survives with no illegal characters,
a concrete sublist instance, and the upload of `{"bookSourceName":"///"}`
(whose name sanitizes to empty) failing with 400 and no remote calls. -/
theorem c4_sanitize_witness :
    ('B' ∉ illegalChars) ∧
    (sanitizeName "A/B").data.Sublist "A/B".data ∧
    upload_file_to_github "org/repo" "main" "m" "tok"
        (.parsed (.obj [("bookSourceName", Json.str "///")])) ⟨404, none⟩ ⟨201, none⟩ =
      (.error ⟨400, "无法从JSON中提取名称"⟩, []) :=
  ⟨(c4_sanitize.1 "A/B").1 'B' (by decide),
    (c4_sanitize.1 "A/B").2,
    c4_sanitize.2.2 "org/repo" "main" "m" "tok" ⟨404, none⟩ ⟨201, none⟩
      [("bookSourceName", Json.str "///")] "book_source" "bookSourceName" "///"
      rfl rfl⟩

/-- C5: a non-JSON upload, an empty-array upload, and an object or
object-headed array missing both discriminator fields each fail with the
corresponding 400 `InvalidContent` error and issue no remote request at all. -/
theorem c5_invalid_inputs :
    ∀ rn br cm tok g p,
      upload_file_to_github rn br cm tok .invalid g p =
        (.error ⟨400, "上传的文件不是有效的JSON格式"⟩, []) ∧
      upload_file_to_github rn br cm tok (.parsed (.arr [])) g p =
        (.error ⟨400, wrapErr "JSON数组为空"⟩, []) ∧
      (∀ kvs, classify kvs = none →
        upload_file_to_github rn br cm tok (.parsed (.obj kvs)) g p =
          (.error ⟨400, wrapErr "JSON中未找到bookSourceName或sourceName字段"⟩, [])) ∧
      (∀ kvs rest, classify kvs = none →
        upload_file_to_github rn br cm tok (.parsed (.arr (.obj kvs :: rest))) g p =
          (.error ⟨400, wrapErr "JSON数组中未找到bookSourceName或sourceName字段"⟩, [])) := by
  intro rn br cm tok g p
  refine ⟨rfl, rfl, ?_, ?_⟩
  · intro kvs hc
    simp [upload_file_to_github, process_core, process_value, hc]
  · intro kvs rest hc
    simp [upload_file_to_github, process_core, process_value, hc]

/-- Witness for C5 on an object and an array-headed object both lacking the
discriminator fields. -/
theorem c5_invalid_inputs_witness :
    upload_file_to_github "org/repo" "main" "m" "tok"
        (.parsed (.obj [("name", Json.str "x")])) ⟨404, none⟩ ⟨201, none⟩ =
      (.error ⟨400, wrapErr "JSON中未找到bookSourceName或sourceName字段"⟩, []) ∧
    upload_file_to_github "org/repo" "main" "m" "tok"
        (.parsed (.arr [.obj []])) ⟨404, none⟩ ⟨201, none⟩ =
      (.error ⟨400, wrapErr "JSON数组中未找到bookSourceName或sourceName字段"⟩, []) :=
  ⟨(c5_invalid_inputs "org/repo" "main" "m" "tok" ⟨404, none⟩ ⟨201, none⟩).2.2.1
      [("name", Json.str "x")] rfl,
    (c5_invalid_inputs "org/repo" "main" "m" "tok" ⟨404, none⟩ ⟨201, none⟩).2.2.2
      [] [] rfl⟩

/-- C6 counterexample: the existence read returns 201 — a 200-class status —
with a body carrying `sha:"abc123"`, yet the write request omits `sha`
(the code tests `status_code == 200`, not 200-class). -/
theorem c6_counterexample :
    ((putDatas (upload_file_to_github "org/repo" "main" "m" "tok"
        (.parsed (.obj [("bookSourceName", Json.str "Test")]))
        ⟨201, some (.obj [("sha", Json.str "abc123")])⟩ ⟨201, none⟩).2).map
      (fun d => d.sha)) = [none] ∧
    (200 ≤ 201 ∧ 201 < 300) :=
  ⟨rfl, by decide⟩

/-- C6 (amended): the write request carries `sha` exactly when the existence
read returned status exactly 200; then the token is the one from the read
body; any other read status — including other 2xx — omits it. -/
theorem c6_sha_iff_status_200 :
    ∀ rn br cm tok raw g p s, readSha g = .ok s →
      (((putDatas (upload_file_to_github rn br cm tok raw g p).2).map
          (fun d => d.sha)) = [] ∨
        ((putDatas (upload_file_to_github rn br cm tok raw g p).2).map
          (fun d => d.sha)) = [s]) ∧
      (g.status ≠ 200 → s = none) ∧
      (∀ kvs tok2, g.status = 200 → g.body = some (.obj kvs) →
        jlookup kvs "sha" = some tok2 → s = some tok2) := by
  intro rn br cm tok raw g p s hg
  refine ⟨?_, ?_, ?_⟩
  · cases raw with
    | empty => exact Or.inl rfl
    | invalid =>
      cases hpc : process_core .invalid with
      | error m => exact Or.inl (by simp [upload_file_to_github, hpc, putDatas])
      | ok r => simp [process_core] at hpc
    | parsed v =>
      cases hpc : process_core (.parsed v) with
      | error m => exact Or.inl (by simp [upload_file_to_github, hpc, putDatas])
      | ok r =>
        obtain ⟨j, t, f, nv⟩ := r
        by_cases htr : pyTruthy nv = true
        · right
          by_cases hps : p.status = 201 ∨ p.status = 200 <;>
            simp [upload_file_to_github, hpc, htr, hg, hps, putDatas]
        · rw [Bool.not_eq_true] at htr
          exact Or.inl (by simp [upload_file_to_github, hpc, htr, putDatas])
  · intro hs200
    unfold readSha at hg
    rw [if_neg hs200] at hg
    simp only [Except.ok.injEq] at hg
    exact hg.symm
  · intro kvs tok2 h200 hbody hsha
    unfold readSha at hg
    rw [if_pos h200, hbody] at hg
    simp only [hsha] at hg
    simp only [Except.ok.injEq] at hg
    exact hg.symm

/-- Witness for C6 (amended): read status 200 with token `abc123` makes the
issued write carry `sha:"abc123"` (or no write happens at all). -/
theorem c6_sha_iff_status_200_witness :
    ((putDatas (upload_file_to_github "org/repo" "main" "m" "tok"
        (.parsed (.obj [("bookSourceName", Json.str "Test")]))
        ⟨200, some (.obj [("sha", Json.str "abc123")])⟩ ⟨201, none⟩).2).map
      (fun d => d.sha)) = [] ∨
    ((putDatas (upload_file_to_github "org/repo" "main" "m" "tok"
        (.parsed (.obj [("bookSourceName", Json.str "Test")]))
        ⟨200, some (.obj [("sha", Json.str "abc123")])⟩ ⟨201, none⟩).2).map
      (fun d => d.sha)) = [some (Json.str "abc123")] :=
  (c6_sha_iff_status_200 "org/repo" "main" "m" "tok"
    (.parsed (.obj [("bookSourceName", Json.str "Test")]))
    ⟨200, some (.obj [("sha", Json.str "abc123")])⟩ ⟨201, none⟩
    (some (Json.str "abc123")) rfl).1

/-- C7 counterexample: a failed write (status 422) whose error body is the
JSON object `{}` — valid JSON but with no `message` field — produces the
detail "文件上传失败: 未知错误" (the fixed unknown-error marker), which does not
carry the raw status code at all (no digit of 422 occurs in it), contradicting
"otherwise carries the raw status code". -/
theorem c7_counterexample :
    (upload_file_to_github "org/repo" "main" "m" "tok"
        (.parsed (.obj [("bookSourceName", Json.str "Test")]))
        ⟨404, none⟩ ⟨422, some (.obj [])⟩).1 =
      .error ⟨400, "文件上传失败: 未知错误"⟩ ∧
    jlookup [] "message" = none ∧
    ('4' ∉ "文件上传失败: 未知错误".data ∧ '2' ∉ "文件上传失败: 未知错误".data) :=
  ⟨rfl, rfl, by decide⟩

/-- C7 (amended): for every publish whose write returns a status other than
200/201, the handler fails with a 400 whose detail is `uploadFailDetail`:
the remote-reported message when the body parses as a JSON object with a
`message` field; the fixed unknown-error marker when the body is a JSON
object without one; and the raw status code when the body is not a JSON
object at all. -/
theorem c7_publish_failed :
    ∀ rn br cm tok raw g p,
      (putDatas (upload_file_to_github rn br cm tok raw g p).2).isEmpty = false →
      p.status ≠ 200 → p.status ≠ 201 →
      ((upload_file_to_github rn br cm tok raw g p).1 =
        .error ⟨400, uploadFailDetail p⟩) ∧
      (∀ kvs m, p.body = some (.obj kvs) →
        jlookup kvs "message" = some (Json.str m) →
        uploadFailDetail p = "文件上传失败: " ++ m) ∧
      (∀ kvs, p.body = some (.obj kvs) → jlookup kvs "message" = none →
        uploadFailDetail p = "文件上传失败: 未知错误") ∧
      ((∀ kvs, p.body ≠ some (.obj kvs)) →
        uploadFailDetail p = "文件上传失败，状态码: " ++ toString p.status) := by
  intro rn br cm tok raw g p hne h200 h201
  refine ⟨?_, ?_, ?_, ?_⟩
  · cases raw with
    | empty => simp [upload_file_to_github, putDatas] at hne
    | invalid =>
      cases hpc : process_core .invalid with
      | error m => simp [upload_file_to_github, hpc, putDatas] at hne
      | ok r => simp [process_core] at hpc
    | parsed v =>
      cases hpc : process_core (.parsed v) with
      | error m => simp [upload_file_to_github, hpc, putDatas] at hne
      | ok r =>
        obtain ⟨j, t, f, nv⟩ := r
        by_cases htr : pyTruthy nv = true
        · cases hrs : readSha g with
          | error e => simp [upload_file_to_github, hpc, htr, hrs, putDatas] at hne
          | ok s =>
            have hpcond : ¬(p.status = 201 ∨ p.status = 200) := by
              rintro (h | h)
              · exact h201 h
              · exact h200 h
            simp [upload_file_to_github, hpc, htr, hrs, hpcond]
        · rw [Bool.not_eq_true] at htr
          simp [upload_file_to_github, hpc, htr, putDatas] at hne
  · intro kvs m hb hm
    simp [uploadFailDetail, hb, hm, pyStr]
  · intro kvs hb hm
    simp [uploadFailDetail, hb, hm, pyStr]
  · intro hnb
    unfold uploadFailDetail
    cases hb : p.body with
    | none => rfl
    | some b =>
      cases b with
      | obj kvs => exact absurd hb (hnb kvs)
      | null => rfl
      | bool x => rfl
      | num x => rfl
      | str x => rfl
      | arr x => rfl

/-- Witness for C7 (amended) at a concrete failed write carrying a remote
message. -/
theorem c7_publish_failed_witness :
    (upload_file_to_github "org/repo" "main" "m" "tok"
        (.parsed (.obj [("bookSourceName", Json.str "Test")]))
        ⟨404, none⟩ ⟨500, some (.obj [("message", Json.str "Bad credentials")])⟩).1 =
      .error ⟨400, uploadFailDetail ⟨500, some (.obj [("message", Json.str "Bad credentials")])⟩⟩ :=
  (c7_publish_failed "org/repo" "main" "m" "tok"
    (.parsed (.obj [("bookSourceName", Json.str "Test")]))
    ⟨404, none⟩ ⟨500, some (.obj [("message", Json.str "Bad credentials")])⟩
    rfl (by decide) (by decide)).1

/-- C8: the `/upload-simple` handler is total (it never raises — every
failure of the primary handler is an `HTTPException`, caught and rendered),
so the framework always answers HTTP 200; its body is exactly the two-field
envelope with `message` `"ok"` and the returned path, or `message` `"error"`
and `"上传失败: " + detail` (the fixed failure prefix applied to the
failure's detail). -/
theorem c8_envelope :
    ∀ rn br cm tok raw g p, ∃ d : String,
      ((upload_file_simple rn br cm tok raw g p).1 =
          .obj [("message", Json.str "ok"), ("data", Json.str d)] ∧
        (upload_file_to_github rn br cm tok raw g p).1 = .ok d) ∨
      ((upload_file_simple rn br cm tok raw g p).1 =
          .obj [("message", Json.str "error"), ("data", Json.str d)] ∧
        ∃ e, (upload_file_to_github rn br cm tok raw g p).1 = .error e ∧
          d = "上传失败: " ++ e.detail) := by
  intro rn br cm tok raw g p
  cases hu : upload_file_to_github rn br cm tok raw g p with
  | mk res calls =>
    cases res with
    | ok path =>
      exact ⟨path, Or.inl ⟨by simp [upload_file_simple, hu], by simp [hu]⟩⟩
    | error e =>
      exact ⟨"上传失败: " ++ e.detail,
        Or.inr ⟨by simp [upload_file_simple, hu], e, by simp [hu], rfl⟩⟩

/-- C10: when the discriminator field is present but its value is a
non-string (number, null, boolean, object, array) or the empty string, the
upload fails with HTTP status 400 and issues no remote request at all. -/
theorem c10_nonstring_name :
    ∀ rn br cm tok v kvs t f nv g p,
      relevantObj v = some kvs →
      classify kvs = some (t, f, nv) →
      (isStr nv = false ∨ nv = Json.str "") →
      (upload_file_to_github rn br cm tok (.parsed v) g p).2 = [] ∧
      errStatus (upload_file_to_github rn br cm tok (.parsed v) g p).1 =
        some 400 := by
  intro rn br cm tok v kvs t f nv g p hrel hc hns
  obtain ⟨A, hA⟩ : ∃ A, process_value v = sanitizeStep A t f nv := by
    cases v with
    | obj kvs0 =>
      simp only [relevantObj, Option.some.injEq] at hrel
      subst hrel
      exact ⟨.arr [.obj kvs0], by simp [process_value, hc]⟩
    | arr l =>
      cases l with
      | nil => simp [relevantObj] at hrel
      | cons first rest =>
        cases first with
        | obj kvs0 =>
          simp only [relevantObj, Option.some.injEq] at hrel
          subst hrel
          exact ⟨.arr (.obj kvs0 :: rest), by simp [process_value, hc]⟩
        | null => simp [relevantObj] at hrel
        | bool b => simp [relevantObj] at hrel
        | num n => simp [relevantObj] at hrel
        | str s => simp [relevantObj] at hrel
        | arr xs => simp [relevantObj] at hrel
    | null => simp [relevantObj] at hrel
    | bool b => simp [relevantObj] at hrel
    | num n => simp [relevantObj] at hrel
    | str s => simp [relevantObj] at hrel
  rcases hns with hns | hns
  · by_cases htr : pyTruthy nv = true
    · have herr : sanitizeStep A t f nv = .error (reSubError nv) := by
        unfold sanitizeStep
        rw [if_pos htr]
        cases nv with
        | str s => simp [isStr] at hns
        | null => rfl
        | bool b => rfl
        | num n => rfl
        | arr xs => rfl
        | obj kvs1 => rfl
      have hpc : process_core (.parsed v) = .error (wrapErr (reSubError nv)) := by
        simp [process_core, hA, herr]
      simp [upload_file_to_github, hpc, errStatus]
    · rw [Bool.not_eq_true] at htr
      have hok : sanitizeStep A t f nv = .ok (A, t, f, nv) := by
        unfold sanitizeStep
        rw [if_neg (by simp [htr])]
      have hpc : process_core (.parsed v) = .ok (A, t, f, nv) := by
        simp [process_core, hA, hok]
      simp [upload_file_to_github, hpc, htr, errStatus]
  · subst hns
    have hok : sanitizeStep A t f (Json.str "") = .ok (A, t, f, Json.str "") := by
      unfold sanitizeStep
      rw [if_neg (by simp [pyTruthy])]
    have hpc : process_core (.parsed v) = .ok (A, t, f, Json.str "") := by
      simp [process_core, hA, hok]
    simp [upload_file_to_github, hpc, errStatus, pyTruthy]

/-- Witness for C10: `{"bookSourceName": 5}` fails with 400 and no remote
calls. -/
theorem c10_nonstring_name_witness :
    (upload_file_to_github "org/repo" "main" "m" "tok"
        (.parsed (.obj [("bookSourceName", Json.num 5)])) ⟨404, none⟩ ⟨201, none⟩).2 = [] ∧
    errStatus (upload_file_to_github "org/repo" "main" "m" "tok"
        (.parsed (.obj [("bookSourceName", Json.num 5)])) ⟨404, none⟩ ⟨201, none⟩).1 =
      some 400 :=
  c10_nonstring_name "org/repo" "main" "m" "tok"
    (.obj [("bookSourceName", Json.num 5)]) [("bookSourceName", Json.num 5)]
    "book_source" "bookSourceName" (Json.num 5) ⟨404, none⟩ ⟨201, none⟩
    rfl rfl (Or.inl rfl)

end SourceZip
